import Mathlib

/-!
Verification development for the BACKEND/NODEJS repository.

The repository is an Express + Mongoose tutorial backend.  The only
controller implemented as JavaScript under the repository is
`registerUser` (src/NODEJS/controllers/user.controller.js); the user
schema is src/NODEJS/models/user.models.js.  The login, logout and
post-creation handlers are given step by step, with exact statuses and
messages, in src/NODEJS/Notes/4_AuthenticationAndAPIs.md, and the post
schema is given there verbatim; those handlers are embedded from the
Notes (and, where the Notes are silent, from the specification, marked
in the doc comments).

Mongoose semantics embedded here:
* schema setters (`lowercase: true`, `trim: true`) run on values being
  stored and, in Mongoose 6 and later (the current default), on query
  filter values of `findOne`; so every email comparison is on
  `(e.toLower).trim`;
* `required: true` on a String path rejects the empty string;
  `minLength` / `maxLength` validate the post-setter value;
* `unique: true` is a unique index: inserting a duplicate raises a
  duplicate-key error, which the handler's catch block turns into a 500;
* the schemas are strict (the Mongoose default), so a field passed to
  `create` that has no schema path — such as `loggedIn`, which
  user.models.js does not declare — is silently discarded;
* numbers and booleans cast to String paths; strings of digits cast to
  Number paths; other mismatches raise a CastError (caught, 500).

Request-body values are JSON, embedded as `JsVal` (numbers restricted
to integers; fractional numbers and nested objects do not occur in any
claim).  Each handler is a total function from a request and a store to
a single HTTP response (status plus JSON body) and the updated store.
-/

/-- Lowercasing of one character, as JavaScript `toLowerCase` does on
basic latin letters (the only letters occurring in this development). -/
def lowerChar (c : Char) : Char :=
  if 65 ≤ c.toNat ∧ c.toNat ≤ 90 then Char.ofNat (c.toNat + 32) else c

/-- JavaScript `String.prototype.toLowerCase` on basic latin strings,
also the Mongoose `lowercase: true` setter. -/
def jsToLower (s : String) : String := ⟨s.data.map lowerChar⟩

/-- Whitespace as removed by JavaScript `trim`. -/
def isWsChar (c : Char) : Bool := c = ' ' || c = '\t' || c = '\n' || c = '\r'

/-- JavaScript `String.prototype.trim`, also the Mongoose `trim: true`
setter: strips leading and trailing whitespace. -/
def jsTrim (s : String) : String :=
  ⟨((s.data.dropWhile isWsChar).reverse.dropWhile isWsChar).reverse⟩

/-- Numeric value of a list of decimal digit characters, `none` if the
list is empty or holds a non-digit. -/
def digitsVal (l : List Char) : Option Nat :=
  if l.isEmpty then none
  else
    l.foldl
      (fun acc c =>
        match acc with
        | none => none
        | some n => if c.isDigit then some (n * 10 + (c.toNat - 48)) else none)
      (some 0)

/-- Parse of a decimal integer string, as Mongoose casts a numeric
string to a Number path; non-numeric strings fail (CastError). -/
def jsToInt? (s : String) : Option Int :=
  match s.data with
  | '-' :: rest => (digitsVal rest).map (fun n => -(n : Int))
  | l => (digitsVal l).map (fun n => (n : Int))

/-- A JSON value, as produced by `res.json` (integers only). -/
inductive Json where
  | jnull : Json
  | jbool : Bool → Json
  | jnum : Int → Json
  | jstr : String → Json
  | jobj : List (String × Json) → Json

/-- A JavaScript value that can appear in a parsed request body field.
`undef` is the value of a field absent from the body. -/
inductive JsVal where
  | undef : JsVal
  | jsnull : JsVal
  | bool : Bool → JsVal
  | num : Int → JsVal
  | str : String → JsVal
deriving DecidableEq, Repr

/-- JavaScript truthiness, as used by the controllers' falsy checks
`if (!username || !email || !password)`: undefined, null, false, 0 and
the empty string are falsy. -/
def JsVal.truthy : JsVal → Bool
  | .undef => false
  | .jsnull => false
  | .bool b => b
  | .num n => n != 0
  | .str s => s != ""

/-- The call `v.toLowerCase()`: defined on strings only; on any other
value JavaScript raises a TypeError, embedded as `none`. -/
def JsVal.toLowerCase? : JsVal → Option String
  | .str s => some (jsToLower s)
  | _ => none

/-- Mongoose cast of a body value to a String schema path: strings as
is, numbers and booleans stringified, null/undefined fail. -/
def JsVal.castString? : JsVal → Option String
  | .str s => some s
  | .num n => some (toString n)
  | .bool b => some (if b then "true" else "false")
  | _ => none

/-- Mongoose cast of a body value to a Number schema path: numbers as
is, booleans as 0/1, numeric strings parsed, anything else a CastError. -/
def JsVal.castNumber? : JsVal → Option Int
  | .num n => some n
  | .bool b => some (if b then 1 else 0)
  | .str s => jsToInt? s
  | _ => none

/-- A stored user document, after the userSchema's setters have run.
The schema (src/NODEJS/models/user.models.js) declares username,
password and email only; it declares no `loggedIn` path, so under
strict mode a stored document never carries one: the `loggedIn`
component below records the value of that path and is `none` on every
document the store creates. -/
structure UserDoc where
  id : Nat
  username : String
  email : String
  password : String
  loggedIn : Option Bool
deriving DecidableEq, Repr

/-- The users collection, with the store generating ids. -/
structure UserStore where
  users : List UserDoc
  nextId : Nat
deriving DecidableEq, Repr

def emptyUserStore : UserStore := ⟨[], 0⟩

/-- The email setters of the userSchema: `lowercase: true` then
`trim: true`. -/
def normEmail (e : String) : String := jsTrim (jsToLower e)

/-- The username setters of the userSchema, identical to the email
ones. -/
def normUsername (u : String) : String := jsTrim (jsToLower u)

/-- The Mongoose query `User.findOne ⦃ email ⦄`: the schema setters run
on the filter value (Mongoose 6 default), so the raw filter value is
lowercased and trimmed before comparison with the stored emails. -/
def findByEmail (s : UserStore) (raw : String) : Option UserDoc :=
  s.users.find? (fun u => u.email == normEmail raw)

/-- The object literal the register controller passes to
`User.create`, including the `loggedIn` field the schema does not
declare. -/
structure CreateUserArg where
  username : String
  email : String
  password : String
  loggedIn : Bool

/-- The call `User.create arg`: applies the schema setters, validates
(required / minLength / maxLength), enforces the two unique indexes,
and inserts.  Any failure raises (= returns `Except.error`) and is
caught by the calling handler.  The schema declares no `loggedIn`
path, so `arg.loggedIn` is discarded and the stored document's
`loggedIn` path is `none`. -/
def userCreate (s : UserStore) (arg : CreateUserArg) :
    Except String (UserDoc × UserStore) :=
  if normUsername arg.username = "" then
    .error "User validation failed: username is required"
  else if 30 < (normUsername arg.username).length then
    .error "User validation failed: username exceeds maxLength 30"
  else if arg.password = "" then
    .error "User validation failed: password is required"
  else if arg.password.length < 6 then
    .error "User validation failed: password below minLength 6"
  else if 50 < arg.password.length then
    .error "User validation failed: password exceeds maxLength 50"
  else if normEmail arg.email = "" then
    .error "User validation failed: email is required"
  else if s.users.any (fun u => u.email == normEmail arg.email) then
    .error "E11000 duplicate key error: email"
  else if s.users.any (fun u => u.username == normUsername arg.username) then
    .error "E11000 duplicate key error: username"
  else
    .ok ({ id := s.nextId, username := normUsername arg.username,
           email := normEmail arg.email, password := arg.password, loggedIn := none },
         ⟨s.users ++
            [{ id := s.nextId, username := normUsername arg.username,
               email := normEmail arg.email, password := arg.password, loggedIn := none }],
          s.nextId + 1⟩)

/-- The body of a registration request, `⦃ username, email, password ⦄`
destructured from `req.body`. -/
structure RegisterRequest where
  username : JsVal
  email : JsVal
  password : JsVal

/-- One HTTP response: the status set by `res.status` and the JSON
body sent by `res.json`. -/
structure Resp where
  status : Nat
  body : Json

/-- The 500 response of a controller's catch block, echoing the error
message (register controller wording). -/
def resp500 (e : String) : Resp :=
  ⟨500, .jobj [("message", .jstr "internal server error"), ("error", .jstr e)]⟩

/-- The registerUser controller
(src/NODEJS/controllers/user.controller.js): falsy check on the three
fields, `email.toLowerCase()` (a TypeError on a non-string email falls
to the catch block), duplicate lookup by that lowercased email,
`User.create` with `loggedIn: false`, 201 with the
`⦃ id, email, username ⦄` view on success, 500 from the catch block on
any raised error. -/
def registerUser (s : UserStore) (req : RegisterRequest) : Resp × UserStore :=
  if !(req.username.truthy && req.email.truthy && req.password.truthy) then
    (⟨400, .jobj [("message", .jstr "All fields are required")]⟩, s)
  else
    match req.email.toLowerCase? with
    | none => (resp500 "email.toLowerCase is not a function", s)
    | some emailLower =>
      match findByEmail s emailLower with
      | some _ => (⟨400, .jobj [("message", .jstr "User already exists!")]⟩, s)
      | none =>
        match req.username.castString?, req.password.castString? with
        | some uname, some pw =>
          match userCreate s ⟨uname, emailLower, pw, false⟩ with
          | .error e => (resp500 e, s)
          | .ok (user, s1) =>
            (⟨201, .jobj [("message", .jstr "user registered"),
              ("user", .jobj [("id", .jnum user.id), ("email", .jstr user.email),
                ("username", .jstr user.username)])]⟩, s1)
        | _, _ => (resp500 "user cast error", s)

/-- The login controller.  Modelled from the spec: no
login controller file exists under the repository's source tree; the
embedding follows spec section 4.2 together with the step list of
Notes/4_AuthenticationAndAPIs.md Section 1 (find by email, 400 User
not found; compare the supplied password with the stored password
material, 400 Invalid credentials; otherwise 200 with id, email,
username).  In current scope the store holds the password material in
plain text, so the one-way comparison succeeds exactly when the
supplied password equals the stored one.  The lookup normalizes the
email (spec: normalizes email to lowercase; the schema setters on the
query filter also trim). -/
def loginUser (s : UserStore) (email password : String) : Resp :=
  match findByEmail s email with
  | none => ⟨400, .jobj [("message", .jstr "User not found")]⟩
  | some u =>
    if password = u.password then
      ⟨200, .jobj [("message", .jstr "User logged in"), ("id", .jnum u.id),
        ("email", .jstr u.email), ("username", .jstr u.username)]⟩
    else
      ⟨400, .jobj [("message", .jstr "Invalid credentials")]⟩

/-- The logout controller.  Modelled from the spec: no
logout controller file exists under the repository's source tree; the
embedding follows spec section 4.3 and Notes Section 3 (find by email,
404 User not found if absent, otherwise 200 Logout successful with no
store mutation). -/
def logoutUser (s : UserStore) (email : String) : Resp :=
  match findByEmail s email with
  | none => ⟨404, .jobj [("message", .jstr "User not found")]⟩
  | some _ => ⟨200, .jobj [("message", .jstr "Logout successful")]⟩

/-- A stored post document (postSchema of Notes Section 4). -/
structure PostDoc where
  id : Nat
  name : String
  description : String
  age : Int
deriving DecidableEq, Repr

/-- The posts collection. -/
structure PostStore where
  posts : List PostDoc
  nextId : Nat
deriving DecidableEq, Repr

def emptyPostStore : PostStore := ⟨[], 0⟩

/-- The call `Post.create`: the postSchema (Notes Section 4) requires
name and description (trimmed, non-empty) and an age between 1 and
150; a violation raises a ValidationError, which the handler's catch
block turns into a 500. -/
def postCreate (s : PostStore) (name description : String) (age : Int) :
    Except String (PostDoc × PostStore) :=
  let nm := jsTrim name
  let d := jsTrim description
  if nm = "" then .error "Post validation failed: name is required"
  else if d = "" then .error "Post validation failed: description is required"
  else if age < 1 then .error "Post validation failed: age below minimum 1"
  else if 150 < age then .error "Post validation failed: age above maximum 150"
  else
    let doc : PostDoc := { id := s.nextId, name := nm, description := d, age := age }
    .ok (doc, ⟨s.posts ++ [doc], s.nextId + 1⟩)

/-- The body of a post-creation request. -/
structure PostRequest where
  name : JsVal
  description : JsVal
  age : JsVal

/-- The post-creation controller.  Modelled from the spec: no post
controller file exists under the repository's source tree; the
embedding follows the step list of Notes Section 4 — falsy check on
the three fields (400 All fields are required), `Post.create`
(a raised ValidationError or CastError falls to the catch block, 500
Internal server error), 201 Post created successfully. -/
def createPost (s : PostStore) (req : PostRequest) : Resp × PostStore :=
  if !(req.name.truthy && req.description.truthy && req.age.truthy) then
    (⟨400, .jobj [("message", .jstr "All fields are required")]⟩, s)
  else
    match req.name.castString?, req.description.castString?, req.age.castNumber? with
    | some nm, some d, some n =>
      match postCreate s nm d n with
      | .error e =>
        (⟨500, .jobj [("message", .jstr "Internal server error"), ("error", .jstr e)]⟩, s)
      | .ok (_, s1) => (⟨201, .jobj [("message", .jstr "Post created successfully")]⟩, s1)
    | _, _, _ =>
      (⟨500, .jobj [("message", .jstr "Internal server error"), ("error", .jstr "post cast error")]⟩, s)

/-- One handler operation against the user store.  Login and logout
read but never write the user store; post creation does not touch it
at all, so the user-store state reachable by any sequence of handler
operations is determined by the register operations alone. -/
inductive Op where
  | register : RegisterRequest → Op
  | login : String → String → Op
  | logout : String → Op

/-- Effect of one handler operation on the user store. -/
def applyOp (s : UserStore) : Op → UserStore
  | .register req => (registerUser s req).2
  | .login _ _ => s
  | .logout _ => s

/-- The user store after running a sequence of handler operations from
the empty store (most recent operation first). -/
def runOps : List Op → UserStore
  | [] => emptyUserStore
  | op :: ops => applyOp (runOps ops) op

/-- The store invariant of the spec: no two user records share an
email, and no two share a username. -/
def uniqueUsers (s : UserStore) : Prop :=
  s.users.Pairwise (fun a b => a.email ≠ b.email ∧ a.username ≠ b.username)

theorem toNat_ofNat_small {n : Nat} (h : n < 0xd800) : (Char.ofNat n).toNat = n := by
  unfold Char.ofNat
  rw [dif_pos (Or.inl h)]
  rfl

theorem lowerChar_idem (c : Char) : lowerChar (lowerChar c) = lowerChar c := by
  unfold lowerChar
  by_cases h : 65 ≤ c.toNat ∧ c.toNat ≤ 90
  · rw [if_pos h]
    have ht : (Char.ofNat (c.toNat + 32)).toNat = c.toNat + 32 :=
      toNat_ofNat_small (by omega)
    rw [if_neg (by rw [ht]; omega)]
  · rw [if_neg h, if_neg h]

theorem jsToLower_idem (s : String) : jsToLower (jsToLower s) = jsToLower s := by
  unfold jsToLower
  simp [List.map_map, Function.comp_def, lowerChar_idem]

theorem normEmail_jsToLower (e : String) : normEmail (jsToLower e) = normEmail e := by
  unfold normEmail
  rw [jsToLower_idem]

/-- C3: for every registration or post-creation request in which any
required field is missing, empty or falsy, the handler returns 400
with message All fields are required, and the store is unchanged (no
record is created, the store is never called). -/
theorem missing_fields_rejected_before_store
    (s : UserStore) (req : RegisterRequest) (ps : PostStore) (preq : PostRequest)
    (hr : req.username.truthy = false ∨ req.email.truthy = false ∨ req.password.truthy = false)
    (hp : preq.name.truthy = false ∨ preq.description.truthy = false ∨ preq.age.truthy = false) :
    registerUser s req = (⟨400, .jobj [("message", .jstr "All fields are required")]⟩, s) ∧
    createPost ps preq = (⟨400, .jobj [("message", .jstr "All fields are required")]⟩, ps) := by
  constructor
  · unfold registerUser
    rcases hr with h | h | h <;> simp [h]
  · unfold createPost
    rcases hp with h | h | h <;> simp [h]

/-- Witness for C3: a registration with no username and a post request
with no description are both rejected with 400 and leave the empty
stores empty. -/
theorem missing_fields_rejected_before_store_witness :
    JsVal.undef.truthy = false ∧
    registerUser emptyUserStore ⟨.undef, .str "a@x.com", .str "secret1"⟩ =
      (⟨400, .jobj [("message", .jstr "All fields are required")]⟩, emptyUserStore) ∧
    createPost emptyPostStore ⟨.str "title", .undef, .num 25⟩ =
      (⟨400, .jobj [("message", .jstr "All fields are required")]⟩, emptyPostStore) :=
  ⟨rfl,
   (missing_fields_rejected_before_store emptyUserStore
      ⟨.undef, .str "a@x.com", .str "secret1"⟩ emptyPostStore
      ⟨.str "title", .undef, .num 25⟩ (Or.inl rfl) (Or.inr (Or.inl rfl))).1,
   (missing_fields_rejected_before_store emptyUserStore
      ⟨.undef, .str "a@x.com", .str "secret1"⟩ emptyPostStore
      ⟨.str "title", .undef, .num 25⟩ (Or.inl rfl) (Or.inr (Or.inl rfl))).2⟩

/-- C10: a registration whose email field is a truthy non-string value
passes the falsy-field validation, the call to toLowerCase raises a
TypeError, and the handler answers 500 internal server error from its
catch block; the store is unchanged. -/
theorem register_nonstring_email_internal_error
    (s : UserStore) (req : RegisterRequest)
    (hu : req.username.truthy = true) (he : req.email.truthy = true)
    (hp : req.password.truthy = true) (hns : req.email.toLowerCase? = none) :
    registerUser s req = (resp500 "email.toLowerCase is not a function", s) := by
  unfold registerUser
  simp [hu, he, hp, hns]

/-- Witness for C10: registering with the JSON number 5 as email gives
the 500 response and creates no record. -/
theorem register_nonstring_email_internal_error_witness :
    registerUser emptyUserStore ⟨.str "bob", .num 5, .str "secret1"⟩ =
      (resp500 "email.toLowerCase is not a function", emptyUserStore) :=
  register_nonstring_email_internal_error emptyUserStore
    ⟨.str "bob", .num 5, .str "secret1"⟩ (by decide) (by decide) (by decide) (by decide)

/-- C7: the register controller passes loggedIn := false to the store,
but the userSchema declares no loggedIn path, so the created record
carries none: a valid registration answers 201 and the single stored
record's loggedIn path is empty — not the boolean false the claim (and
the controller's own comments) describe. -/
theorem register_drops_loggedIn_flag :
    (registerUser emptyUserStore
      ⟨.str "hassan", .str "hassan@mail.com", .str "secret1"⟩).1.status = 201 ∧
    ((registerUser emptyUserStore
      ⟨.str "hassan", .str "hassan@mail.com", .str "secret1"⟩).2.users.map
        (fun u => u.loggedIn)) = [none] := by
  decide

/-- C5: the login handler looks the user up by normalized email first:
if no stored user matches, it answers 400 User not found (the
NotFoundError, never a 500); if one matches but the password does not,
it answers 400 Invalid credentials; on a match it answers 200 with id,
email and username. -/
theorem login_error_order (s : UserStore) (e p : String) :
    (findByEmail s e = none →
      loginUser s e p = ⟨400, .jobj [("message", .jstr "User not found")]⟩) ∧
    (∀ u, findByEmail s e = some u → p ≠ u.password →
      loginUser s e p = ⟨400, .jobj [("message", .jstr "Invalid credentials")]⟩) ∧
    (∀ u, findByEmail s e = some u → p = u.password →
      loginUser s e p = ⟨200, .jobj [("message", .jstr "User logged in"),
        ("id", .jnum u.id), ("email", .jstr u.email), ("username", .jstr u.username)]⟩) := by
  refine ⟨fun h => ?_, fun u hu hp => ?_, fun u hu hp => ?_⟩
  · unfold loginUser; simp [h]
  · unfold loginUser; simp [hu, hp]
  · unfold loginUser; simp [hu, hp]

/-- Witness for C5: against a store holding bob, a login with an
unknown email is a 400 User not found, a login for bob with a wrong
password is a 400 Invalid credentials, and a login for bob with the
right password (and a differently cased email) is a 200. -/
theorem login_error_order_witness :
    loginUser ⟨[⟨0, "bob", "b@x.com", "secret1", none⟩], 1⟩ "nope@x.com" "secret1" =
      ⟨400, .jobj [("message", .jstr "User not found")]⟩ ∧
    loginUser ⟨[⟨0, "bob", "b@x.com", "secret1", none⟩], 1⟩ "B@x.com" "wrong1" =
      ⟨400, .jobj [("message", .jstr "Invalid credentials")]⟩ ∧
    loginUser ⟨[⟨0, "bob", "b@x.com", "secret1", none⟩], 1⟩ "B@x.com" "secret1" =
      ⟨200, .jobj [("message", .jstr "User logged in"), ("id", .jnum 0),
        ("email", .jstr "b@x.com"), ("username", .jstr "bob")]⟩ :=
  ⟨(login_error_order _ "nope@x.com" "secret1").1 (by decide),
   (login_error_order _ "B@x.com" "wrong1").2.1
     ⟨0, "bob", "b@x.com", "secret1", none⟩ (by decide) (by decide),
   (login_error_order _ "B@x.com" "secret1").2.2
     ⟨0, "bob", "b@x.com", "secret1", none⟩ (by decide) rfl⟩

/-- C9: every handler is total and answers exactly one HTTP response,
whose status is drawn from the handler's documented set — no error
propagates past the handler boundary; and an absent email maps to 404
in the logout handler but to 400 in the login handler. -/
theorem handlers_map_errors_to_responses :
    (∀ s req, (registerUser s req).1.status = 400 ∨ (registerUser s req).1.status = 201 ∨
      (registerUser s req).1.status = 500) ∧
    (∀ s e p, (loginUser s e p).status = 400 ∨ (loginUser s e p).status = 200) ∧
    (∀ s e, (logoutUser s e).status = 404 ∨ (logoutUser s e).status = 200) ∧
    (∀ ps preq, (createPost ps preq).1.status = 400 ∨ (createPost ps preq).1.status = 201 ∨
      (createPost ps preq).1.status = 500) ∧
    (∀ s e p, findByEmail s e = none →
      (logoutUser s e).status = 404 ∧ (loginUser s e p).status = 400) := by
  refine ⟨?_, ?_, ?_, ?_, ?_⟩
  · intro s req
    unfold registerUser resp500
    (repeat' split) <;> simp
  · intro s e p
    unfold loginUser
    (repeat' split) <;> simp
  · intro s e
    unfold logoutUser
    (repeat' split) <;> simp
  · intro ps preq
    unfold createPost
    (repeat' split) <;> simp
  · intro s e p h
    constructor
    · unfold logoutUser; simp [h]
    · unfold loginUser; simp [h]

/-- Witness for C9: on the empty store, a logout for an unknown email
is a 404 and a login for it is a 400. -/
theorem handlers_map_errors_to_responses_witness :
    (logoutUser emptyUserStore "a@x.com").status = 404 ∧
    (loginUser emptyUserStore "a@x.com" "pw1234").status = 400 :=
  handlers_map_errors_to_responses.2.2.2.2 emptyUserStore "a@x.com" "pw1234" (by decide)

theorem userCreate_ok_shape {s : UserStore} {arg : CreateUserArg}
    {d : UserDoc} {s1 : UserStore}
    (h : userCreate s arg = .ok (d, s1)) :
    s1.users = s.users ++ [d] ∧
    ∀ u ∈ s.users, u.email ≠ d.email ∧ u.username ≠ d.username := by
  unfold userCreate at h
  split_ifs at h with h1 h2 h3 h4 h5 h6 h7 h8
  rw [Except.ok.injEq, Prod.mk.injEq] at h
  obtain ⟨hd, hs⟩ := h
  subst hd hs
  refine ⟨rfl, fun u hu => ?_⟩
  simp only [List.any_eq_true, beq_iff_eq, not_exists, not_and] at h7 h8
  exact ⟨fun hc => h7 u hu hc, fun hc => h8 u hu hc⟩

theorem registerUser_store_effect (s : UserStore) (req : RegisterRequest) :
    (registerUser s req).2 = s ∨
    ∃ d, (registerUser s req).2.users = s.users ++ [d] ∧
      ∀ u ∈ s.users, u.email ≠ d.email ∧ u.username ≠ d.username := by
  unfold registerUser
  (repeat' split) <;> try exact Or.inl rfl
  rename_i user s1 heq
  obtain ⟨hs, hfresh⟩ := userCreate_ok_shape heq
  exact Or.inr ⟨user, hs, hfresh⟩

theorem uniqueUsers_step {s : UserStore} (h : uniqueUsers s) (op : Op) :
    uniqueUsers (applyOp s op) := by
  cases op with
  | login e p => exact h
  | logout e => exact h
  | register req =>
    rcases registerUser_store_effect s req with heq | ⟨d, heq, hfresh⟩
    · show uniqueUsers (registerUser s req).2
      rw [heq]
      exact h
    · show uniqueUsers (registerUser s req).2
      unfold uniqueUsers
      rw [heq]
      rw [List.pairwise_append]
      refine ⟨h, List.pairwise_singleton _ _, ?_⟩
      intro a ha b hb
      simp only [List.mem_singleton] at hb
      subst hb
      exact hfresh a ha

/-- C4: in every user-store state reachable from the empty store by
any sequence of handler operations, no two user records share an email
and no two share a username — the uniqueness checks of the store's
create reject any insert that would duplicate either field, and no
other operation writes the user store. -/
theorem reachable_user_store_unique (ops : List Op) : uniqueUsers (runOps ops) := by
  induction ops with
  | nil =>
    unfold runOps uniqueUsers emptyUserStore
    exact List.Pairwise.nil
  | cons op rest ih =>
    unfold runOps
    exact uniqueUsers_step ih op

theorem registerUser_empty_ok
    (u e p : String) (hu : u ≠ "") (he : e ≠ "") (hp : p ≠ "")
    (hun : normUsername u ≠ "") (hul : (normUsername u).length ≤ 30)
    (hp6 : 6 ≤ p.length) (hp50 : p.length ≤ 50) (hen : normEmail e ≠ "") :
    registerUser emptyUserStore ⟨.str u, .str e, .str p⟩ =
      (⟨201, .jobj [("message", .jstr "user registered"),
         ("user", .jobj [("id", .jnum 0), ("email", .jstr (normEmail e)),
           ("username", .jstr (normUsername u))])]⟩,
       ⟨[⟨0, normUsername u, normEmail e, p, none⟩], 1⟩) := by
  have h1 : ¬ 30 < (normUsername u).length := by omega
  have h2 : ¬ p.length < 6 := by omega
  have h3 : ¬ 50 < p.length := by omega
  unfold registerUser findByEmail userCreate
  simp [JsVal.truthy, JsVal.toLowerCase?, JsVal.castString?, emptyUserStore,
    hu, he, hp, hun, h1, h2, h3, hen, normEmail_jsToLower]

/-- C1: a first registration with any valid input answers 201 and
stores exactly one record; a second registration whose email equals
the first one after lowercasing — with any username and password —
answers 400 User already exists and stores nothing. -/
theorem register_once_then_duplicate_email
    (u e p u2 e2 p2 : String)
    (hu : u ≠ "") (he : e ≠ "") (hp : p ≠ "")
    (hun : normUsername u ≠ "") (hul : (normUsername u).length ≤ 30)
    (hp6 : 6 ≤ p.length) (hp50 : p.length ≤ 50)
    (hen : normEmail e ≠ "")
    (hu2 : u2 ≠ "") (he2 : e2 ≠ "") (hp2 : p2 ≠ "")
    (hsame : jsToLower e2 = jsToLower e) :
    registerUser emptyUserStore ⟨.str u, .str e, .str p⟩ =
      (⟨201, .jobj [("message", .jstr "user registered"),
         ("user", .jobj [("id", .jnum 0), ("email", .jstr (normEmail e)),
           ("username", .jstr (normUsername u))])]⟩,
       ⟨[⟨0, normUsername u, normEmail e, p, none⟩], 1⟩) ∧
    registerUser ⟨[⟨0, normUsername u, normEmail e, p, none⟩], 1⟩ ⟨.str u2, .str e2, .str p2⟩ =
      (⟨400, .jobj [("message", .jstr "User already exists!")]⟩,
       ⟨[⟨0, normUsername u, normEmail e, p, none⟩], 1⟩) := by
  constructor
  · exact registerUser_empty_ok u e p hu he hp hun hul hp6 hp50 hen
  · have hkey : normEmail (jsToLower e2) = normEmail e := by
      rw [normEmail_jsToLower]
      unfold normEmail
      rw [hsame]
    unfold registerUser findByEmail
    simp [JsVal.truthy, JsVal.toLowerCase?, hu2, he2, hp2, hkey]

/-- Witness for C1: registering hassan with Hassan@Mail.com succeeds
with 201, and a repeat with HASSAN@MAIL.COM under another username is
a 400 User already exists that stores nothing. -/
theorem register_once_then_duplicate_email_witness :
    registerUser emptyUserStore ⟨.str "hassan", .str "Hassan@Mail.com", .str "secret1"⟩ =
      (⟨201, .jobj [("message", .jstr "user registered"),
         ("user", .jobj [("id", .jnum 0), ("email", .jstr (normEmail "Hassan@Mail.com")),
           ("username", .jstr (normUsername "hassan"))])]⟩,
       ⟨[⟨0, normUsername "hassan", normEmail "Hassan@Mail.com", "secret1", none⟩], 1⟩) ∧
    registerUser ⟨[⟨0, normUsername "hassan", normEmail "Hassan@Mail.com", "secret1", none⟩], 1⟩
        ⟨.str "someoneelse", .str "HASSAN@MAIL.COM", .str "secret2"⟩ =
      (⟨400, .jobj [("message", .jstr "User already exists!")]⟩,
       ⟨[⟨0, normUsername "hassan", normEmail "Hassan@Mail.com", "secret1", none⟩], 1⟩) :=
  register_once_then_duplicate_email "hassan" "Hassan@Mail.com" "secret1"
    "someoneelse" "HASSAN@MAIL.COM" "secret2"
    (by decide) (by decide) (by decide) (by decide) (by decide) (by decide)
    (by decide) (by decide) (by decide) (by decide) (by decide) (by decide)

/-- C2 amended: the stored record's email is the trimmed, lowercased
supplied email (the schema's trim setter also runs, so it equals the
plain lowercased email exactly when that has no surrounding
whitespace); and since the duplicate query and the login lookup
normalize the same way, an email differing from the registered one
only in case logs into, and conflicts with, the same record. -/
theorem register_email_case_insensitive_amended
    (u e p u2 e2 p2 : String)
    (hu : u ≠ "") (he : e ≠ "") (hp : p ≠ "")
    (hun : normUsername u ≠ "") (hul : (normUsername u).length ≤ 30)
    (hp6 : 6 ≤ p.length) (hp50 : p.length ≤ 50)
    (hen : normEmail e ≠ "")
    (hu2 : u2 ≠ "") (he2 : e2 ≠ "") (hp2 : p2 ≠ "")
    (hsame : jsToLower e2 = jsToLower e) :
    ((registerUser emptyUserStore ⟨.str u, .str e, .str p⟩).2.users.map
       (fun d => d.email)) = [jsTrim (jsToLower e)] ∧
    loginUser (registerUser emptyUserStore ⟨.str u, .str e, .str p⟩).2 e2 p =
      ⟨200, .jobj [("message", .jstr "User logged in"), ("id", .jnum 0),
        ("email", .jstr (normEmail e)), ("username", .jstr (normUsername u))]⟩ ∧
    registerUser (registerUser emptyUserStore ⟨.str u, .str e, .str p⟩).2
        ⟨.str u2, .str e2, .str p2⟩ =
      (⟨400, .jobj [("message", .jstr "User already exists!")]⟩,
       (registerUser emptyUserStore ⟨.str u, .str e, .str p⟩).2) := by
  have hreg := registerUser_empty_ok u e p hu he hp hun hul hp6 hp50 hen
  have hkey : normEmail e2 = normEmail e := by
    unfold normEmail
    rw [hsame]
  refine ⟨?_, ?_, ?_⟩
  · rw [hreg]
    rfl
  · rw [hreg]
    unfold loginUser findByEmail
    simp [hkey]
  · rw [hreg]
    have hkey2 : normEmail (jsToLower e2) = normEmail e := by
      rw [normEmail_jsToLower]; exact hkey
    unfold registerUser findByEmail
    simp [JsVal.truthy, JsVal.toLowerCase?, hu2, he2, hp2, hkey2]

/-- Witness for C2: after registering with User@x.com, the stored
email is user@x.com; logging in as user@X.com with the right password
answers 200 for that record, and re-registering with user@X.com is a
400 conflict. -/
theorem register_email_case_insensitive_amended_witness :
    ((registerUser emptyUserStore ⟨.str "hassan", .str "User@x.com", .str "secret1"⟩).2.users.map
       (fun d => d.email)) = [jsTrim (jsToLower "User@x.com")] ∧
    loginUser (registerUser emptyUserStore
        ⟨.str "hassan", .str "User@x.com", .str "secret1"⟩).2 "user@X.com" "secret1" =
      ⟨200, .jobj [("message", .jstr "User logged in"), ("id", .jnum 0),
        ("email", .jstr (normEmail "User@x.com")),
        ("username", .jstr (normUsername "hassan"))]⟩ ∧
    registerUser (registerUser emptyUserStore
        ⟨.str "hassan", .str "User@x.com", .str "secret1"⟩).2
        ⟨.str "someoneelse", .str "user@X.com", .str "secret2"⟩ =
      (⟨400, .jobj [("message", .jstr "User already exists!")]⟩,
       (registerUser emptyUserStore ⟨.str "hassan", .str "User@x.com", .str "secret1"⟩).2) :=
  register_email_case_insensitive_amended "hassan" "User@x.com" "secret1"
    "someoneelse" "user@X.com" "secret2"
    (by decide) (by decide) (by decide) (by decide) (by decide) (by decide)
    (by decide) (by decide) (by decide) (by decide) (by decide) (by decide)

/-- Counterexample to C2 as stated: registering with the email
beginning with a space stores a@x.com, which is not the lowercased
supplied email (that still begins with the space) — the schema's trim
setter also ran. -/
theorem stored_email_not_lowercased_counterexample :
    ((registerUser emptyUserStore ⟨.str "bob", .str " A@x.com", .str "secret1"⟩).2.users.map
      (fun d => d.email)) = ["a@x.com"] ∧
    jsToLower " A@x.com" = " a@x.com" ∧
    (" a@x.com" : String) ≠ "a@x.com" := by
  decide

/-- Counterexample to C6 as stated: a post-creation request with a
truthy age outside the bounds (151) answers 500 from the caught
store ValidationError, not the claimed 400. -/
theorem post_age_151_counterexample :
    createPost emptyPostStore ⟨.str "title", .str "desc", .num 151⟩ =
      (⟨500, .jobj [("message", .jstr "Internal server error"),
        ("error", .jstr "Post validation failed: age above maximum 150")]⟩,
       emptyPostStore) := by
  rfl

/-- C6 amended: age 0 is falsy and is rejected by the missing-field
check with 400; a truthy age outside the bounds 1..150 fails the
postSchema validation inside the store, which the handler's catch
block surfaces as a 500 (not a 400), creating nothing; the boundary
ages 1 and 150 are accepted with 201 and create the record. -/
theorem post_age_bounds_amended
    (ps : PostStore) (nm d : String) (n : Int)
    (hnm : nm ≠ "") (hd : d ≠ "") (hnmt : jsTrim nm ≠ "") (hdt : jsTrim d ≠ "") :
    (createPost ps ⟨.str nm, .str d, .num 0⟩ =
      (⟨400, .jobj [("message", .jstr "All fields are required")]⟩, ps)) ∧
    (n ≠ 0 → (n < 1 ∨ 150 < n) →
      (createPost ps ⟨.str nm, .str d, .num n⟩).1.status = 500 ∧
      (createPost ps ⟨.str nm, .str d, .num n⟩).2 = ps) ∧
    (1 ≤ n → n ≤ 150 →
      createPost ps ⟨.str nm, .str d, .num n⟩ =
        (⟨201, .jobj [("message", .jstr "Post created successfully")]⟩,
         ⟨ps.posts ++ [⟨ps.nextId, jsTrim nm, jsTrim d, n⟩], ps.nextId + 1⟩)) := by
  refine ⟨?_, ?_, ?_⟩
  · unfold createPost
    simp [JsVal.truthy]
  · intro hn hrange
    unfold createPost postCreate
    rcases hrange with hlt | hgt
    · simp [JsVal.truthy, JsVal.castString?, JsVal.castNumber?, hnm, hd, hn, hnmt, hdt, hlt]
    · have hnot : ¬ n < 1 := by omega
      simp [JsVal.truthy, JsVal.castString?, JsVal.castNumber?, hnm, hd, hn, hnmt, hdt,
        hnot, hgt]
  · intro hlo hhi
    have hn : n ≠ 0 := by omega
    have h1 : ¬ n < 1 := by omega
    have h2 : ¬ 150 < n := by omega
    unfold createPost postCreate
    simp [JsVal.truthy, JsVal.castString?, JsVal.castNumber?, hnm, hd, hn, hnmt, hdt, h1, h2]

/-- Witness for C6: age 0 is a 400, age 151 a 500 that creates
nothing, and the boundary ages 1 and 150 create a post with 201. -/
theorem post_age_bounds_amended_witness :
    (createPost emptyPostStore ⟨.str "title", .str "desc", .num 0⟩ =
      (⟨400, .jobj [("message", .jstr "All fields are required")]⟩, emptyPostStore)) ∧
    (createPost emptyPostStore ⟨.str "title", .str "desc", .num 151⟩).1.status = 500 ∧
    (createPost emptyPostStore ⟨.str "title", .str "desc", .num 151⟩).2 = emptyPostStore ∧
    createPost emptyPostStore ⟨.str "title", .str "desc", .num 1⟩ =
      (⟨201, .jobj [("message", .jstr "Post created successfully")]⟩,
       ⟨[⟨0, jsTrim "title", jsTrim "desc", 1⟩], 1⟩) ∧
    createPost emptyPostStore ⟨.str "title", .str "desc", .num 150⟩ =
      (⟨201, .jobj [("message", .jstr "Post created successfully")]⟩,
       ⟨[⟨0, jsTrim "title", jsTrim "desc", 150⟩], 1⟩) := by
  refine ⟨?_, ?_, ?_, ?_, ?_⟩
  · exact (post_age_bounds_amended emptyPostStore "title" "desc" 151
      (by decide) (by decide) (by decide) (by decide)).1
  · exact ((post_age_bounds_amended emptyPostStore "title" "desc" 151
      (by decide) (by decide) (by decide) (by decide)).2.1
      (by decide) (Or.inr (by decide))).1
  · exact ((post_age_bounds_amended emptyPostStore "title" "desc" 151
      (by decide) (by decide) (by decide) (by decide)).2.1
      (by decide) (Or.inr (by decide))).2
  · exact (post_age_bounds_amended emptyPostStore "title" "desc" 1
      (by decide) (by decide) (by decide) (by decide)).2.2 (by decide) (by decide)
  · exact (post_age_bounds_amended emptyPostStore "title" "desc" 150
      (by decide) (by decide) (by decide) (by decide)).2.2 (by decide) (by decide)

/-- C8: every 201 response of the register handler carries a user view
holding exactly the keys id, email and username — the password,
loggedIn, timestamps and version key never appear in the success
body. -/
theorem register_success_view_shape
    (s : UserStore) (req : RegisterRequest)
    (h201 : (registerUser s req).1.status = 201) :
    ∃ i em un, (registerUser s req).1.body =
      .jobj [("message", .jstr "user registered"),
        ("user", .jobj [("id", .jnum i), ("email", .jstr em), ("username", .jstr un)])] := by
  rcases hE : registerUser s req with ⟨r, t⟩
  try rw [hE] at h201
  try rw [hE]
  unfold registerUser resp500 at hE
  (repeat' split at hE) <;>
    (rw [Prod.mk.injEq] at hE
     obtain ⟨h1, h2⟩ := hE
     subst h1
     first
     | exact ⟨_, _, _, rfl⟩
     | simp at h201)

/-- Witness for C8: a successful concrete registration answers 201 and
its body is exactly the message together with the three-key user
view. -/
theorem register_success_view_shape_witness :
    (registerUser emptyUserStore ⟨.str "bob", .str "b@x.com", .str "secret1"⟩).1.status = 201 ∧
    ∃ i em un,
      (registerUser emptyUserStore ⟨.str "bob", .str "b@x.com", .str "secret1"⟩).1.body =
        .jobj [("message", .jstr "user registered"),
          ("user", .jobj [("id", .jnum i), ("email", .jstr em), ("username", .jstr un)])] :=
  ⟨by decide,
   register_success_view_shape emptyUserStore
     ⟨.str "bob", .str "b@x.com", .str "secret1"⟩ (by decide)⟩
